import Mathlib

/-!
Verification development for the DeepResearch research-loop controller.

The definitions below are a shallow embedding of the TypeScript sources:
`src/core/base/StateManager.ts`, `src/core/base/StateMachine.ts`,
`src/core/index.ts` (ResearchAgent and WebContentReader),
`src/core/types/errors.ts`, and `src/services/content/ContentReader.ts`.

Modelling conventions:
- JS `number` values holding token counts or status codes become `Int`;
  step counters and sizes become `Nat`; relevance scores become `Rat`.
- `Date` values become `Nat` ticks, passed explicitly as `now`.
- JS objects used as string-keyed maps (`draft.urls`, `draft.content`)
  become association lists in insertion order, which mirrors JS object
  key ordering for string keys.
- Thrown `Error` objects become `Except JsError`, where `JsError`
  records the error class name and message.
- Asynchronous I/O (LLM, search provider, content reader) is abstracted
  into an `Oracle` of possibly-failing functions; universally quantified
  oracles model adversarial providers.
-/

/-- JS Error value: the class name (constructor name) and message. -/
structure JsError where
  name : String
  message : String
deriving DecidableEq, Repr

/-- Lookup in an insertion-ordered association list (JS object property read). -/
def assocGet {α : Type} (k : String) : List (String × α) → Option α
  | [] => none
  | (k', v) :: rest => if k' = k then some v else assocGet k rest

/-- Write to an insertion-ordered association list (JS object property write):
an existing key keeps its position, a new key is appended. -/
def assocSet {α : Type} (k : String) (v : α) : List (String × α) → List (String × α)
  | [] => [(k, v)]
  | (k', v') :: rest => if k' = k then (k, v) :: rest else (k', v') :: assocSet k v rest

/-- Budget record of `ResearchState` (`StateManager.ts`). -/
structure Budget where
  total : Int
  used : Int
deriving DecidableEq, Repr

/-- ResearchMetrics (`StateManager.ts`). -/
structure Metrics where
  searchCount : Nat
  visitCount : Nat
  evaluationCount : Nat
  errorCount : Nat
deriving DecidableEq, Repr

/-- SearchResult stored in `ResearchState.urls` (`StateManager.ts`). -/
structure SearchResult where
  url : String
  title : String
  snippet : String
  relevance : Rat
  visited : Bool
deriving DecidableEq, Repr

/-- WebContent stored in `ResearchState.content` (`StateManager.ts`). -/
structure WebContent where
  url : String
  content : String
  timestamp : Nat
deriving DecidableEq, Repr

/-- Knowledge item type tag (`'qa' | 'search' | 'visit'`). -/
inductive KnowledgeType
  | qa
  | search
  | visit
deriving DecidableEq, Repr

/-- KnowledgeItem (`StateManager.ts`). -/
structure KnowledgeItem where
  question : String
  answer : String
  type : KnowledgeType
  timestamp : Nat
deriving DecidableEq, Repr

/-- ResearchState (`StateManager.ts`). -/
structure ResearchState where
  query : String
  step : Nat
  startTime : Nat
  lastUpdate : Nat
  budget : Budget
  knowledge : List KnowledgeItem
  urls : List (String × SearchResult)
  content : List (String × WebContent)
  metrics : Metrics
deriving DecidableEq, Repr

/-- StateManagerOptions (`StateManager.ts`). `maxKnowledge`/`maxUrls` are
optional; JS truthiness makes an explicit `0` behave like absent. -/
structure StateManagerOptions where
  tokenBudget : Int
  maxKnowledge : Option Nat
  maxUrls : Option Nat
deriving DecidableEq, Repr

/-- Initial state built by the StateManager constructor. -/
def StateManager.initState (opts : StateManagerOptions) : ResearchState :=
  { query := ""
    step := 0
    startTime := 0
    lastUpdate := 0
    budget := { total := opts.tokenBudget, used := 0 }
    knowledge := []
    urls := []
    content := []
    metrics := { searchCount := 0, visitCount := 0, evaluationCount := 0, errorCount := 0 } }

/-- Draft updater passed by `initialize` to `update`. -/
def initializeDraft (query : String) (s : ResearchState) : ResearchState :=
  { s with query := query, step := 0 }

/-- Draft updater passed by `addSearchResults` to `update`: each result is
inserted only if its URL is not yet a key, then `searchCount` is bumped. -/
def addSearchResultsDraft (results : List SearchResult) (s : ResearchState) : ResearchState :=
  let urls := results.foldl
    (fun acc r => if (assocGet r.url acc).isSome then acc else assocSet r.url r acc) s.urls
  { s with
      urls := urls
      metrics := { s.metrics with searchCount := s.metrics.searchCount + 1 } }

/-- Draft updater passed by `markUrlVisited` to `update`. -/
def markUrlVisitedDraft (url : String) (s : ResearchState) : ResearchState :=
  match assocGet url s.urls with
  | none => s
  | some r => { s with urls := assocSet url { r with visited := true } s.urls }

/-- Draft updater passed by `addContent` to `update`. -/
def addContentDraft (url content : String) (now : Nat) (s : ResearchState) : ResearchState :=
  { s with
      content := assocSet url { url := url, content := content, timestamp := now } s.content
      metrics := { s.metrics with visitCount := s.metrics.visitCount + 1 } }

/-- Draft updater passed by `addKnowledge` to `update`: the item is appended,
then, when `maxKnowledge` is set (and nonzero, by JS truthiness) and the list
is longer, the list is cut to its last `maxKnowledge` items (`slice(-k)`). -/
def addKnowledgeDraft (maxKnowledge : Option Nat) (question answer : String)
    (ty : KnowledgeType) (now : Nat) (s : ResearchState) : ResearchState :=
  let appended := s.knowledge ++ [{ question := question, answer := answer, type := ty, timestamp := now }]
  let limited :=
    match maxKnowledge with
    | none => appended
    | some k => if k ≠ 0 ∧ k < appended.length then appended.drop (appended.length - k) else appended
  { s with knowledge := limited }

/-- Draft updater passed by `trackTokenUsage` to `update`. -/
def trackTokenUsageDraft (tokens : Int) (s : ResearchState) : ResearchState :=
  { s with budget := { s.budget with used := s.budget.used + tokens } }

/-- Draft updater passed by `incrementErrorCount` to `update`. -/
def incrementErrorCountDraft (s : ResearchState) : ResearchState :=
  { s with metrics := { s.metrics with errorCount := s.metrics.errorCount + 1 } }

/-- Draft updater passed by `incrementStep` to `update`. -/
def incrementStepDraft (s : ResearchState) : ResearchState :=
  { s with step := s.step + 1 }

/-- StateManager.update as written in the source: the updater runs on a draft
inside Immer's `produce`, but the produced next state is never assigned back
to `this.state`; the only observable change is the following direct
`this.state.lastUpdate = new Date()` assignment. -/
def StateManager.update (updater : ResearchState → ResearchState) (now : Nat)
    (s : ResearchState) : ResearchState :=
  let _produced := updater s
  { s with lastUpdate := now }

/-- StateManager.initialize. -/
def StateManager.initialize (query : String) (now : Nat) (s : ResearchState) : ResearchState :=
  StateManager.update (initializeDraft query) now s

/-- StateManager.addSearchResults. -/
def StateManager.addSearchResults (results : List SearchResult) (now : Nat)
    (s : ResearchState) : ResearchState :=
  StateManager.update (addSearchResultsDraft results) now s

/-- StateManager.markUrlVisited. -/
def StateManager.markUrlVisited (url : String) (now : Nat) (s : ResearchState) : ResearchState :=
  StateManager.update (markUrlVisitedDraft url) now s

/-- StateManager.addContent. -/
def StateManager.addContent (url content : String) (now : Nat) (s : ResearchState) : ResearchState :=
  StateManager.update (addContentDraft url content now) now s

/-- StateManager.addKnowledge (reads `maxKnowledge` from the constructor options). -/
def StateManager.addKnowledge (opts : StateManagerOptions) (question answer : String)
    (ty : KnowledgeType) (now : Nat) (s : ResearchState) : ResearchState :=
  StateManager.update (addKnowledgeDraft opts.maxKnowledge question answer ty now) now s

/-- StateManager.trackTokenUsage. -/
def StateManager.trackTokenUsage (tokens : Int) (now : Nat) (s : ResearchState) : ResearchState :=
  StateManager.update (trackTokenUsageDraft tokens) now s

/-- StateManager.incrementErrorCount. -/
def StateManager.incrementErrorCount (now : Nat) (s : ResearchState) : ResearchState :=
  StateManager.update incrementErrorCountDraft now s

/-- StateManager.incrementStep. -/
def StateManager.incrementStep (now : Nat) (s : ResearchState) : ResearchState :=
  StateManager.update incrementStepDraft now s

/-- StateManager.isBudgetExhausted: `used >= total * 0.85`. -/
def StateManager.isBudgetExhausted (s : ResearchState) : Bool :=
  decide ((s.budget.total : Rat) * (85 / 100) ≤ (s.budget.used : Rat))

/-- StateManager.getUsedTokens. -/
def StateManager.getUsedTokens (s : ResearchState) : Int :=
  s.budget.used

/-- StateManager.getQuery. -/
def StateManager.getQuery (s : ResearchState) : String :=
  s.query

/-- StateManager.getMetrics. -/
def StateManager.getMetrics (s : ResearchState) : Metrics :=
  s.metrics

/-- Reference shape used in answers and results ({url, quote}). -/
structure Reference where
  url : String
  quote : String
deriving DecidableEq, Repr

/-- StateManager.getReferences: first `limit` content records, each quoted by
its first 200 characters plus an ellipsis. -/
def StateManager.getReferences (limit : Nat) (s : ResearchState) : List Reference :=
  (s.content.take limit).map fun p =>
    { url := p.2.url, quote := { data := p.2.content.data.take 200 } ++ "..." }

/-- Context handed to the LLM (`StateManager.getContext`): last 10 knowledge
items (`slice(-10)`) and the keys of the content record. -/
structure Context where
  query : String
  step : Nat
  knowledge : List KnowledgeItem
  visitedUrls : List String
deriving DecidableEq, Repr

/-- StateManager.getContext. -/
def StateManager.getContext (s : ResearchState) : Context :=
  { query := s.query
    step := s.step
    knowledge := s.knowledge.drop (s.knowledge.length - 10)
    visitedUrls := s.content.map (·.1) }

/-! Agent state, actions and the external-provider oracle
(`src/core/types/agent.ts`, `src/core/types/actions.ts`). -/

/-- AgentState discriminated union (`types/agent.ts`). The `initializing`
context carries the query and start time; payloads mirror the source. -/
inductive AgentState
  | idle
  | initializing (query : String) (startTime : Nat)
  | searching (step : Nat) (query : String)
  | reading (step : Nat) (url : String)
  | evaluating (step : Nat) (answer : String)
  | reflecting (step : Nat) (feedback : String)
  | completed (answer : String) (references : List Reference)
  | failed (error : String)
  | cancelled (reason : String)
deriving DecidableEq, Repr

/-- The `status` discriminator string of an agent state. -/
def statusOf : AgentState → String
  | .idle => "idle"
  | .initializing _ _ => "initializing"
  | .searching _ _ => "searching"
  | .reading _ _ => "reading"
  | .evaluating _ _ => "evaluating"
  | .reflecting _ _ => "reflecting"
  | .completed _ _ => "completed"
  | .failed _ => "failed"
  | .cancelled _ => "cancelled"

/-- StateMachine.isTerminal: status in ['completed', 'failed', 'cancelled']. -/
def isTerminalB (s : AgentState) : Bool :=
  ["completed", "failed", "cancelled"].contains (statusOf s)

/-- Search query of a search action ({query, priority}). -/
structure SearchQuery where
  query : String
  priority : String
deriving DecidableEq, Repr

/-- URL entry of a visit action ({url, reason}). -/
structure VisitUrl where
  url : String
  reason : String
deriving DecidableEq, Repr

/-- AgentAction discriminated union (`types/actions.ts`). The `id`,
`timestamp` and `think` fields never influence control flow and are omitted. -/
inductive AgentAction
  | search (queries : List SearchQuery)
  | visit (urls : List VisitUrl)
  | answer (answer : String) (confidence : Rat) (references : List Reference)
  | reflect (currentGaps : List String) (progress : String) (nextSteps : List String)
  | coding (code : String) (language : String)
deriving DecidableEq, Repr

/-- Search-provider result (`services/search/SearchProvider.ts`): `relevance`
is optional and defaulted to 0.5 by the agent. -/
structure ProviderSearchResult where
  url : String
  title : String
  snippet : String
  relevance : Option Rat
deriving DecidableEq, Repr

/-- External collaborators of the agent, as possibly-failing functions.
`decideAction` models `llmProvider.generate` followed by `parseAction`;
an `.error` result models a thrown provider or parse error. Universally
quantified oracles model adversarial providers returning arbitrary bytes. -/
structure Oracle where
  search : String → Except JsError (List ProviderSearchResult)
  decideAction : Context → Except JsError AgentAction
  readUrl : String → Except JsError String
  extract : String → String → Except JsError String
  continueResp : Context → Except JsError String
  finalResp : Context → Except JsError String

/-- AgentConfig (`types/agent.ts`), the fields the control flow reads. -/
structure AgentConfig where
  tokenBudget : Int
  maxSteps : Nat
  maxDuration : Nat
  maxBadAttempts : Nat
  timeout : Nat
deriving DecidableEq, Repr

/-- ResearchAgent.decideNextAction: provider or parse failure surfaces as
LLMError('Failed to decide next action'). -/
def decideNextAction (o : Oracle) (s : ResearchState) : Except JsError AgentAction :=
  match o.decideAction (StateManager.getContext s) with
  | .error _ => .error { name := "LLMError", message := "Failed to decide next action" }
  | .ok a => .ok a

/-- Conversion of provider search results done in `handleSearching`
(`relevance: r.relevance ?? 0.5`, `visited: false`). -/
def convertResults (results : List ProviderSearchResult) : List SearchResult :=
  results.map fun r =>
    { url := r.url
      title := r.title
      snippet := r.snippet
      relevance := r.relevance.getD (1 / 2)
      visited := false }

/-- ResearchAgent.handleIdle: reads the query from the StateManager; an empty
(JS-falsy) query raises ConfigurationError('Query not initialized'). -/
def handleIdle (now : Nat) (s : ResearchState) : Except JsError (AgentState × ResearchState) :=
  let query := StateManager.getQuery s
  if query = "" then
    .error { name := "ConfigurationError", message := "Query not initialized" }
  else
    .ok (.initializing query now, s)

/-- ResearchAgent.handleInitializing. -/
def handleInitializing (query : String) (now : Nat) (s : ResearchState) :
    Except JsError (AgentState × ResearchState) :=
  .ok (.searching 1 query, StateManager.incrementStep now s)

/-- ResearchAgent.handleSearching. Every failure inside the handler's `try`
block (provider failure, LLM failure, empty visit list) lands in the `catch`,
which raises SearchError('Search failed'); the `incrementErrorCount` done
there only touches `lastUpdate` and is lost with the throw. The follow-up
query of a search action is `queries[0]?.query || state.query` (JS `||`:
an empty first query falls back to the current one). -/
def handleSearching (o : Oracle) (now step : Nat) (query : String) (s : ResearchState) :
    Except JsError (AgentState × ResearchState) :=
  match o.search query with
  | .error _ => .error { name := "SearchError", message := "Search failed" }
  | .ok results =>
    let s := StateManager.addSearchResults (convertResults results) now s
    match decideNextAction o s with
    | .error _ => .error { name := "SearchError", message := "Search failed" }
    | .ok action =>
      match action with
      | .visit urls =>
        match urls with
        | [] => .error { name := "SearchError", message := "Search failed" }
        | u :: _ => .ok (.reading step u.url, s)
      | .search queries =>
        let nextQuery :=
          match queries with
          | [] => query
          | q :: _ => if q.query = "" then query else q.query
        .ok (.searching (step + 1) nextQuery, s)
      | .answer ans _ _ => .ok (.evaluating step ans, s)
      | _ => .ok (.searching (step + 1) query, s)

/-- ResearchAgent.handleReading: any failure in the `try` block raises
ContentError('Failed to read content'). -/
def handleReading (o : Oracle) (opts : StateManagerOptions) (now step : Nat) (url : String)
    (s : ResearchState) : Except JsError (AgentState × ResearchState) :=
  match o.readUrl url with
  | .error _ => .error { name := "ContentError", message := "Failed to read content" }
  | .ok content =>
    let s := StateManager.markUrlVisited url now s
    let s := StateManager.addContent url content now s
    match o.extract content url with
    | .error _ => .error { name := "ContentError", message := "Failed to read content" }
    | .ok knowledge =>
      let s := StateManager.addKnowledge opts url knowledge .visit now s
      .ok (.evaluating step ("Visited " ++ url), s)

/-- JS `hay.includes(needle)` on strings. -/
def jsIncludes (hay needle : String) : Bool :=
  decide (needle.data <:+: hay.data)

/-- ResearchAgent.shouldContinueResearch: stop on budget exhaustion or too
many errors, otherwise ask the LLM and continue unless its lowercased reply
contains "yes"; an LLM failure means stop. -/
def shouldContinueResearch (o : Oracle) (cfg : AgentConfig) (s : ResearchState) : Bool :=
  if StateManager.isBudgetExhausted s then false
  else if cfg.maxBadAttempts ≤ (StateManager.getMetrics s).errorCount then false
  else
    match o.continueResp (StateManager.getContext s) with
    | .error _ => false
    | .ok content => !(jsIncludes content.toLower "yes")

/-- ResearchAgent.generateFinalAnswer: references are the first 10 content
records; an LLM failure raises LLMError('Failed to generate final answer'). -/
def generateFinalAnswer (o : Oracle) (s : ResearchState) :
    Except JsError (String × List Reference) :=
  let references := StateManager.getReferences 10 s
  match o.finalResp (StateManager.getContext s) with
  | .error _ => .error { name := "LLMError", message := "Failed to generate final answer" }
  | .ok content => .ok (content, references)

/-- ResearchAgent.handleEvaluating: the candidate answer in the state is not
consulted; the handler either moves on to reflecting or completes with a
freshly generated final answer. -/
def handleEvaluating (o : Oracle) (cfg : AgentConfig) (now step : Nat) (answer : String)
    (s : ResearchState) : Except JsError (AgentState × ResearchState) :=
  if shouldContinueResearch o cfg s then
    .ok (.reflecting step "Evaluating progress", s)
  else
    match generateFinalAnswer o s with
    | .error e => .error e
    | .ok (ans, refs) => .ok (.completed ans refs, s)

/-- ResearchAgent.handleReflecting: no `try` block here, so LLM failures
propagate as LLMError and an empty visit list as a plain Error; an answer
action completes immediately with the action's answer and references. -/
def handleReflecting (o : Oracle) (now step : Nat) (feedback : String) (s : ResearchState) :
    Except JsError (AgentState × ResearchState) :=
  match decideNextAction o s with
  | .error e => .error e
  | .ok action =>
    match action with
    | .search queries =>
      let nextQuery :=
        match queries with
        | [] => StateManager.getQuery s
        | q :: _ => if q.query = "" then StateManager.getQuery s else q.query
      .ok (.searching (step + 1) nextQuery, s)
    | .visit urls =>
      match urls with
      | [] => .error { name := "Error", message := "No URLs to visit" }
      | u :: _ => .ok (.reading step u.url, s)
    | .answer ans _ refs => .ok (.completed ans refs, s)
    | _ =>
      match generateFinalAnswer o s with
      | .error e => .error e
      | .ok (ans, refs) => .ok (.completed ans refs, s)

/-- Handler map built in `createStateMachine`: one handler per non-terminal
status, each first re-checking its status as in the source (`isIdle` etc.). -/
def agentHandlers (o : Oracle) (cfg : AgentConfig) (opts : StateManagerOptions) (status : String) :
    Option (Nat → AgentState → ResearchState → Except JsError (AgentState × ResearchState)) :=
  if status = "idle" then some fun now st s =>
    match st with
    | .idle => handleIdle now s
    | _ => .error { name := "Error", message := "Invalid state for idle handler" }
  else if status = "initializing" then some fun now st s =>
    match st with
    | .initializing q _ => handleInitializing q now s
    | _ => .error { name := "Error", message := "Invalid state for initializing handler" }
  else if status = "searching" then some fun now st s =>
    match st with
    | .searching step q => handleSearching o now step q s
    | _ => .error { name := "Error", message := "Invalid state for searching handler" }
  else if status = "reading" then some fun now st s =>
    match st with
    | .reading step url => handleReading o opts now step url s
    | _ => .error { name := "Error", message := "Invalid state for reading handler" }
  else if status = "evaluating" then some fun now st s =>
    match st with
    | .evaluating step ans => handleEvaluating o cfg now step ans s
    | _ => .error { name := "Error", message := "Invalid state for evaluating handler" }
  else if status = "reflecting" then some fun now st s =>
    match st with
    | .reflecting step fb => handleReflecting o now step fb s
    | _ => .error { name := "Error", message := "Invalid state for reflecting handler" }
  else none

/-- Validator map built in `createStateMachine` (the `isIdle`..`isReflecting`
type guards keyed by status). -/
def agentValidators (status : String) : Option (AgentState → Bool) :=
  if status = "idle" then some fun st => statusOf st = "idle"
  else if status = "initializing" then some fun st => statusOf st = "initializing"
  else if status = "searching" then some fun st => statusOf st = "searching"
  else if status = "reading" then some fun st => statusOf st = "reading"
  else if status = "evaluating" then some fun st => statusOf st = "evaluating"
  else if status = "reflecting" then some fun st => statusOf st = "reflecting"
  else none

/-! The generic state machine (`src/core/base/StateMachine.ts`). -/

/-- StateMachine.run as a fuel-indexed loop. Mirrors the source order of the
checks at the head of each iteration: terminal test (the `while` guard),
cancellation, max steps, max duration, handler lookup, state validation,
handler execution. `cancel n` is the cancellation flag as observed at the
check of iteration `n`; `elapsed n` is `Date.now() - startTime` observed
there. The result pairs the outcome with the final `stepCount`, which counts
executed transitions. The fuel argument only makes the recursion structural:
the max-steps check fires before fuel can run out whenever
`maxSteps ≤ stepCount + fuel` (proved in `runLoop_fuel_congr` below), and
`run` enters with `fuel = maxSteps`. -/
def runLoop
    (handlers : String → Option (Nat → AgentState → ResearchState → Except JsError (AgentState × ResearchState)))
    (validators : String → Option (AgentState → Bool))
    (cancel : Nat → Option String) (elapsed : Nat → Nat)
    (maxSteps maxDuration : Nat)
    (state : AgentState) (s : ResearchState) (stepCount : Nat) (fuel : Nat) :
    Except JsError (AgentState × ResearchState) × Nat :=
  if isTerminalB state then (.ok (state, s), stepCount)
  else
    match cancel stepCount with
    | some r => (.error { name := "Error", message := "State machine cancelled: " ++ r }, stepCount)
    | none =>
      if maxSteps ≤ stepCount then
        (.error { name := "Error", message := s!"Max steps ({maxSteps}) exceeded at step {stepCount}" }, stepCount)
      else if maxDuration < elapsed stepCount then
        (.error { name := "Error", message := s!"Max duration ({maxDuration}ms) exceeded after {elapsed stepCount}ms" }, stepCount)
      else
        match handlers (statusOf state) with
        | none => (.error { name := "Error", message := "No transition handler for state: " ++ statusOf state }, stepCount)
        | some h =>
          let valid :=
            match validators (statusOf state) with
            | none => true
            | some v => v state
          if !valid then
            (.error { name := "Error", message := "Invalid state: " ++ statusOf state }, stepCount)
          else
            match fuel with
            | 0 => (.error { name := "Error", message := "State machine out of fuel" }, stepCount)
            | fuel' + 1 =>
              match h stepCount state s with
              | .error e => (.error e, stepCount)
              | .ok (next, s') =>
                runLoop handlers validators cancel elapsed maxSteps maxDuration next s' (stepCount + 1) fuel'

/-- StateMachine.run: the loop from the initial state with `stepCount = 0`. -/
def StateMachine.run
    (handlers : String → Option (Nat → AgentState → ResearchState → Except JsError (AgentState × ResearchState)))
    (validators : String → Option (AgentState → Bool))
    (cancel : Nat → Option String) (elapsed : Nat → Nat)
    (maxSteps maxDuration : Nat) (state : AgentState) (s : ResearchState) :
    Except JsError (AgentState × ResearchState) × Nat :=
  runLoop handlers validators cancel elapsed maxSteps maxDuration state s 0 maxSteps

/-- ResearchResult (`types/agent.ts`). -/
structure ResearchResult where
  query : String
  answer : String
  references : List Reference
  metrics : Metrics
  duration : Nat
  steps : Nat
deriving DecidableEq, Repr

/-- ResearchAgent.buildResult. The catch-all branch is unreachable: `research`
only calls this after its `isTerminal` check, as in the source's typing. -/
def buildResult (finalState : AgentState) (s : ResearchState) (duration steps : Nat) :
    ResearchResult :=
  match finalState with
  | .completed ans refs =>
    { query := StateManager.getQuery s, answer := ans, references := refs
      metrics := StateManager.getMetrics s, duration := duration, steps := steps }
  | .failed err =>
    { query := StateManager.getQuery s, answer := "Research failed: " ++ err, references := []
      metrics := StateManager.getMetrics s, duration := duration, steps := steps }
  | .cancelled r =>
    { query := StateManager.getQuery s, answer := "Research cancelled: " ++ r, references := []
      metrics := StateManager.getMetrics s, duration := duration, steps := steps }
  | _ =>
    { query := StateManager.getQuery s, answer := "", references := []
      metrics := StateManager.getMetrics s, duration := duration, steps := steps }

/-- ResearchAgent.research: initialize the StateManager with the query, run
the machine from `idle`, demand a terminal state, and build the result. The
source's `catch` block passes every thrown error through `handleError`, which
returns it unchanged, and rethrows it — so machine errors reach the caller
as-is (modelled by propagating `.error`). -/
def research (o : Oracle) (cfg : AgentConfig) (opts : StateManagerOptions)
    (cancel : Nat → Option String) (elapsed : Nat → Nat) (query : String) :
    Except JsError ResearchResult :=
  let s0 := StateManager.initState opts
  let s1 := StateManager.initialize query 0 s0
  match StateMachine.run (agentHandlers o cfg opts) agentValidators cancel elapsed
      cfg.maxSteps cfg.maxDuration .idle s1 with
  | (.error e, _) => .error e
  | (.ok (finalState, s), steps) =>
    if isTerminalB finalState then
      .ok (buildResult finalState s (elapsed steps) steps)
    else
      .error { name := "Error", message := "Research terminated in non-terminal state" }

/-! Error retryability (`src/core/types/errors.ts`) and content truncation
(`src/services/content/ContentReader.ts`). -/

/-- LLMError retryability from the constructor:
`!context.statusCode || context.statusCode === 429 || context.statusCode >= 500`.
An absent status code is JS-falsy, and so is an explicit status code 0. -/
def LLMError.retryable (statusCode : Option Int) : Bool :=
  match statusCode with
  | none => true
  | some c => decide (c = 0) || decide (c = 429) || decide (500 ≤ c)

/-- Modelled from the spec's words, for comparison with `LLMError.retryable`:
retryable exactly when the error carries no status code, or carries 429, or a
status of 500 or greater. -/
def specLLMRetryable : Option Int → Bool
  | none => true
  | some c => decide (c = 429) || decide (500 ≤ c)

/-- Index of the last space in a character list (JS `lastIndexOf(' ')`),
`none` standing for the JS result -1. -/
def lastSpaceIdx : List Char → Option Nat
  | [] => none
  | c :: rest =>
    match lastSpaceIdx rest with
    | some i => some (i + 1)
    | none => if c = ' ' then some 0 else none

/-- truncateContent (`ContentReader.ts`): unchanged when within `maxLength`;
otherwise the first `maxLength` characters are cut at the last space —
`slice(0, -1)` when there is none, dropping one character — and `'...'` is
appended. -/
def truncateContent (content : String) (maxLength : Nat) : String :=
  if content.length ≤ maxLength then content
  else
    let truncated := content.data.take maxLength
    match lastSpaceIdx truncated with
    | none => { data := truncated.take (truncated.length - 1) } ++ "..."
    | some i => { data := truncated.take i } ++ "..."

/-- The maxLength step of `WebContentReader.readWithMetadata`: content longer
than `maxLength` is passed through `truncateContent`. -/
def applyMaxLength (content : String) (maxLength : Nat) : String :=
  if maxLength < content.length then truncateContent content maxLength else content

/-! Support lemmas about the run loop. -/

/-- The final step count never exceeds the entry step count plus the fuel. -/
theorem runLoop_count_le
    (h : String → Option (Nat → AgentState → ResearchState → Except JsError (AgentState × ResearchState)))
    (v : String → Option (AgentState → Bool))
    (c : Nat → Option String) (e : Nat → Nat) (ms md : Nat) :
    ∀ (fuel : Nat) (state : AgentState) (s : ResearchState) (n : Nat),
      (runLoop h v c e ms md state s n fuel).2 ≤ n + fuel := by
  intro fuel
  induction fuel with
  | zero =>
    intro state s n
    rw [runLoop]
    repeat' split
    all_goals try simp_all
    all_goals try split
    all_goals simp_all
  | succ f ih =>
    intro state s n
    rw [runLoop]
    repeat' split
    all_goals try simp_all
    all_goals try split
    all_goals try simp_all
    all_goals exact le_trans (ih _ _ _) (by omega)

/-- A successful loop result is always a terminal state. -/
theorem runLoop_ok_terminal
    (h : String → Option (Nat → AgentState → ResearchState → Except JsError (AgentState × ResearchState)))
    (v : String → Option (AgentState → Bool))
    (c : Nat → Option String) (e : Nat → Nat) (ms md : Nat) :
    ∀ (fuel : Nat) (state : AgentState) (s : ResearchState) (n : Nat)
      (st : AgentState) (s' : ResearchState),
      (runLoop h v c e ms md state s n fuel).1 = .ok (st, s') → isTerminalB st = true := by
  intro fuel
  induction fuel with
  | zero =>
    intro state s n st s' hok
    rw [runLoop] at hok
    repeat' split at hok
    all_goals try simp_all
    all_goals try (split at hok)
    all_goals simp_all
  | succ f ih =>
    intro state s n st s' hok
    rw [runLoop] at hok
    repeat' split at hok
    all_goals try simp_all
    all_goals try (split at hok)
    all_goals try simp_all
    all_goals exact ih _ _ _ _ _ hok

/-- Fuel irrelevance: as long as the fuel covers the remaining max-steps
allowance, the loop's result does not depend on it — the max-steps check
fires before the fuel can run out, exactly as in the unfueled source loop. -/
theorem runLoop_fuel_congr
    (h : String → Option (Nat → AgentState → ResearchState → Except JsError (AgentState × ResearchState)))
    (v : String → Option (AgentState → Bool))
    (c : Nat → Option String) (e : Nat → Nat) (ms md : Nat) :
    ∀ (f₁ f₂ : Nat) (state : AgentState) (s : ResearchState) (n : Nat),
      ms ≤ n + f₁ → ms ≤ n + f₂ →
      runLoop h v c e ms md state s n f₁ = runLoop h v c e ms md state s n f₂ := by
  intro f₁
  induction f₁ with
  | zero =>
    intro f₂ state s n h1 h2
    rw [runLoop, runLoop]
    repeat' split
    all_goals simp_all
  | succ f ih =>
    intro f₂ state s n h1 h2
    cases f₂ with
    | zero =>
      rw [runLoop, runLoop]
      repeat' split
      all_goals simp_all
    | succ f₂ =>
      rw [runLoop, runLoop]
      repeat' split
      all_goals try simp_all
      all_goals try (split <;> try simp_all)
      all_goals exact ih _ _ _ _ (by omega) (by omega)

/-! Concrete fixtures used by witnesses and counterexamples. -/

/-- Empty handler map. -/
def noHandlers : String → Option (Nat → AgentState → ResearchState → Except JsError (AgentState × ResearchState)) :=
  fun _ => none

/-- Empty validator map. -/
def noValidators : String → Option (AgentState → Bool) :=
  fun _ => none

/-- No cancellation request. -/
def noCancel : Nat → Option String :=
  fun _ => none

/-- Clock that reports no elapsed time. -/
def zeroElapsed : Nat → Nat :=
  fun _ => 0

/-- Adversarial environment whose every provider call fails. -/
def oracleFail : Oracle :=
  { search := fun _ => .error { name := "Error", message := "provider down" }
    decideAction := fun _ => .error { name := "Error", message := "provider down" }
    readUrl := fun _ => .error { name := "Error", message := "provider down" }
    extract := fun _ _ => .error { name := "Error", message := "provider down" }
    continueResp := fun _ => .error { name := "Error", message := "provider down" }
    finalResp := fun _ => .error { name := "Error", message := "provider down" } }

/-- Adversarial environment whose LLM always picks another search action. -/
def oracleSearchLoop : Oracle :=
  { oracleFail with
    search := fun _ => .ok []
    decideAction := fun _ => .ok (.search [{ query := "q2", priority := "high" }]) }

/-- Environment whose LLM always answers directly. -/
def oracleAnswer : Oracle :=
  { oracleFail with decideAction := fun _ => .ok (.answer "42" 1 []) }

/-- Small agent configuration, valid per `AgentConfigSchema`. -/
def cfgSmall : AgentConfig :=
  { tokenBudget := 1000, maxSteps := 3, maxDuration := 1000, maxBadAttempts := 3, timeout := 30 }

/-- Plain StateManager options. -/
def optsPlain : StateManagerOptions :=
  { tokenBudget := 1000, maxKnowledge := none, maxUrls := none }

/-- Options with a zero token budget, making `isBudgetExhausted` hold from
the start (`0 ≥ 0.85 · 0`). -/
def optsZeroBudget : StateManagerOptions :=
  { tokenBudget := 0, maxKnowledge := none, maxUrls := none }

/-- Fresh state for the plain options. -/
def rsPlain : ResearchState :=
  StateManager.initState optsPlain

/-- Fresh state for the zero-budget options. -/
def rsZeroBudget : ResearchState :=
  StateManager.initState optsZeroBudget

/-- Adversarial handler map that never reaches a terminal state. -/
def loopHandler : String → Option (Nat → AgentState → ResearchState → Except JsError (AgentState × ResearchState)) :=
  fun _ => some fun _ _ s => .ok (.searching 1 "q", s)

/-! Claim C1. -/

/-- C1 (amended): for every handler map, validator map, cancellation signal
and clock — in particular for the agent's handlers driven by an adversarial
LLM — `StateMachine.run` terminates after at most `maxSteps` executed
transitions, and whenever it returns normally the returned state is terminal
(`completed`, `failed` or `cancelled`). Contrary to the original claim, on a
max-steps, max-duration or cancellation breach the loop raises an error
(which `research` rethrows) instead of emitting a terminal state. -/
theorem C1_amended :
    ∀ (h : String → Option (Nat → AgentState → ResearchState → Except JsError (AgentState × ResearchState)))
      (v : String → Option (AgentState → Bool))
      (c : Nat → Option String) (e : Nat → Nat) (ms md : Nat)
      (state : AgentState) (s : ResearchState),
      (StateMachine.run h v c e ms md state s).2 ≤ ms ∧
      ∀ st s', (StateMachine.run h v c e ms md state s).1 = .ok (st, s') →
        isTerminalB st = true := by
  intro h v c e ms md state s
  refine ⟨le_trans (runLoop_count_le h v c e ms md ms state s 0) (by omega), ?_⟩
  intro st s' hok
  exact runLoop_ok_terminal h v c e ms md ms state s 0 st s' hok

/-- Witness for C1: a concrete run that returns normally does so in a
terminal state and within the step bound. -/
theorem C1_witness :
    isTerminalB (.completed "a" []) = true ∧
    (StateMachine.run noHandlers noValidators noCancel zeroElapsed 5 9
        (.completed "a" []) rsPlain).2 ≤ 5 :=
  ⟨(C1_amended noHandlers noValidators noCancel zeroElapsed 5 9 (.completed "a" []) rsPlain).2
      (.completed "a" []) rsPlain rfl,
   (C1_amended noHandlers noValidators noCancel zeroElapsed 5 9 (.completed "a" []) rsPlain).1⟩

/-- Counterexample to C1 as stated: with an adversarial handler that never
reaches a terminal state, the loop stops after exactly `maxSteps = 2`
transitions by raising the max-steps error — it terminates, but does not
emit a terminal `completed`/`failed`/`cancelled` state. -/
theorem C1_cex :
    (StateMachine.run loopHandler noValidators noCancel zeroElapsed 2 1000
        (.searching 1 "q") rsPlain).1
      = .error { name := "Error", message := "Max steps (2) exceeded at step 2" } ∧
    (StateMachine.run loopHandler noValidators noCancel zeroElapsed 2 1000
        (.searching 1 "q") rsPlain).2 = 2 := by
  constructor <;> rfl

/-! Claim C3. -/

/-- C3 (amended): no error is ever absorbed and no terminal result is ever
returned. Because `StateManager.update` discards the produced state, the
query set by `initialize` is never stored, so the very first iteration's
idle handler raises ConfigurationError('Query not initialized') — unless a
cancellation was requested, in which case the cancellation error is raised
first. The `catch` block of `research` rethrows whatever it receives, so
that error is exactly what the caller gets, for every oracle, configuration
and query. -/
theorem C3_amended (o : Oracle) (cfg : AgentConfig) (opts : StateManagerOptions)
    (cancel : Nat → Option String) (elapsed : Nat → Nat) (q : String)
    (hms : 0 < cfg.maxSteps) (hd : elapsed 0 ≤ cfg.maxDuration) :
    research o cfg opts cancel elapsed q =
      .error (match cancel 0 with
        | some r => { name := "Error", message := "State machine cancelled: " ++ r }
        | none => { name := "ConfigurationError", message := "Query not initialized" }) := by
  obtain ⟨tb, ms, md, mba, tio⟩ := cfg
  dsimp at hms hd
  cases ms with
  | zero => omega
  | succ m =>
    unfold research
    dsimp only
    rw [StateMachine.run, runLoop]
    cases hc : cancel 0 with
    | some r => simp [hc, isTerminalB, statusOf]
    | none =>
      simp only [hc]
      rw [if_neg (by omega : ¬ md < elapsed 0)]
      simp [isTerminalB, statusOf, agentHandlers, agentValidators, handleIdle,
        StateManager.getQuery, StateManager.initialize, StateManager.update,
        StateManager.initState]

/-- Witness for C3: a concrete call with healthy providers and no
cancellation receives the ConfigurationError. -/
theorem C3_witness :
    research oracleFail cfgSmall optsPlain noCancel zeroElapsed "What is 2+2?"
      = .error { name := "ConfigurationError", message := "Query not initialized" } :=
  C3_amended oracleFail cfgSmall optsPlain noCancel zeroElapsed "What is 2+2?"
    (by decide) (by decide)

/-- Counterexample to C3 as stated: a call with a valid configuration, a
working search provider and no cancellation does not return a terminal
result at all — it returns an exceptional ConfigurationError. -/
theorem C3_cex :
    research oracleSearchLoop cfgSmall optsPlain noCancel zeroElapsed
        "Who wrote the Rust book?"
      = .error { name := "ConfigurationError", message := "Query not initialized" } := by
  rfl

/-! Claim C4. -/

/-- C4 (amended): when cancellation is requested, the next iteration's
cancellation check raises the error 'State machine cancelled: reason'
(which `research` rethrows to the caller) from any non-terminal state, with
no further transition executed; the machine never transitions into the
`cancelled` terminal state, and no answer is produced. -/
theorem C4_amended :
    ∀ (h : String → Option (Nat → AgentState → ResearchState → Except JsError (AgentState × ResearchState)))
      (v : String → Option (AgentState → Bool))
      (e : Nat → Nat) (ms md : Nat) (state : AgentState) (s : ResearchState)
      (n fuel : Nat) (r : String),
      isTerminalB state = false →
      runLoop h v (fun _ => some r) e ms md state s n fuel
        = (.error { name := "Error", message := "State machine cancelled: " ++ r }, n) := by
  intro h v e ms md state s n fuel r hterm
  rw [runLoop]
  simp [hterm]

/-- Witness for C4: concrete cancelled run. -/
theorem C4_witness :
    runLoop noHandlers noValidators (fun _ => some "stop") zeroElapsed 3 1000
        (.searching 1 "q") rsPlain 0 3
      = (.error { name := "Error", message := "State machine cancelled: stop" }, 0) :=
  C4_amended noHandlers noValidators zeroElapsed 3 1000 (.searching 1 "q") rsPlain 0 3 "stop"
    (by decide)

/-- Counterexample to C4 as stated: under a cancellation request the agent's
machine raises the cancellation error; it does not transition to the
terminal `cancelled` state carrying the reason. -/
theorem C4_cex :
    (StateMachine.run (agentHandlers oracleAnswer cfgSmall optsPlain) agentValidators
        (fun _ => some "user stop") zeroElapsed 3 1000 (.searching 1 "q") rsPlain).1
      = .error { name := "Error", message := "State machine cancelled: user stop" } ∧
    (StateMachine.run (agentHandlers oracleAnswer cfgSmall optsPlain) agentValidators
        (fun _ => some "user stop") zeroElapsed 3 1000 (.searching 1 "q") rsPlain).1
      ≠ .ok (.cancelled "user stop", rsPlain) := by
  have h1 : (StateMachine.run (agentHandlers oracleAnswer cfgSmall optsPlain) agentValidators
      (fun _ => some "user stop") zeroElapsed 3 1000 (.searching 1 "q") rsPlain).1
      = .error { name := "Error", message := "State machine cancelled: user stop" } := rfl
  exact ⟨h1, by rw [h1]; simp⟩

/-! Claim C2. -/

/-- Environment whose final-answer call succeeds and everything else fails. -/
def oracleFinal : Oracle :=
  { oracleFail with finalResp := fun _ => .ok "final answer" }

/-- C2 (amended): the 85% budget threshold is consulted only inside
`shouldContinueResearch`, i.e. only when the machine is in the evaluating
state; there, once `tokensUsed ≥ 0.85 · tokenBudget`, the loop stops and a
single ordinary final-answer LLM call completes the session (there is no
beast-mode call bounded to the reserved 15%). In every other state the
step executor ignores the budget entirely: the searching handler's chosen
next state is the same for every budget value, so exhaustion does not stop
further regular iterations. -/
theorem C2_amended :
    (∀ (o : Oracle) (cfg : AgentConfig) (now step : Nat) (ans : String) (s : ResearchState)
       (out : String),
       StateManager.isBudgetExhausted s = true →
       o.finalResp (StateManager.getContext s) = .ok out →
       handleEvaluating o cfg now step ans s
         = .ok (.completed out (StateManager.getReferences 10 s), s)) ∧
    (∀ (o : Oracle) (now step : Nat) (q : String) (s : ResearchState) (b : Budget),
       (handleSearching o now step q { s with budget := b }).map Prod.fst
         = (handleSearching o now step q s).map Prod.fst) := by
  constructor
  · intro o cfg now step ans s out hex hfin
    simp [handleEvaluating, shouldContinueResearch, hex, generateFinalAnswer, hfin]
  · intro o now step q s b
    unfold handleSearching
    cases hs : o.search q with
    | error e => rfl
    | ok results =>
      dsimp only
      unfold decideNextAction
      have hctx : StateManager.getContext
            (StateManager.addSearchResults (convertResults results) now { s with budget := b })
          = StateManager.getContext
            (StateManager.addSearchResults (convertResults results) now s) := rfl
      rw [hctx]
      cases hd : o.decideAction
          (StateManager.getContext (StateManager.addSearchResults (convertResults results) now s)) with
      | error e => rfl
      | ok action =>
        cases action with
        | search queries => cases queries <;> rfl
        | visit urls => cases urls <;> rfl
        | answer ans conf refs => rfl
        | reflect a b c => rfl
        | coding a b => rfl

/-- Witness for C2: with an exhausted budget, the evaluating handler makes
the one final-answer call and completes. -/
theorem C2_witness :
    handleEvaluating oracleFinal cfgSmall 0 2 "candidate" rsZeroBudget
      = .ok (.completed "final answer" [], rsZeroBudget) :=
  C2_amended.1 oracleFinal cfgSmall 0 2 "candidate" rsZeroBudget "final answer"
    (by simp [StateManager.isBudgetExhausted, rsZeroBudget, StateManager.initState, optsZeroBudget])
    rfl

/-- Counterexample to C2 as stated: with `tokenBudget = 0` the budget is
exhausted from the start (`0 ≥ 0.85 · 0`), yet the machine executes three
full regular searching iterations (the max-steps error message records the
count) and no beast-mode attempt or terminal result is ever produced. -/
theorem C2_cex :
    StateManager.isBudgetExhausted rsZeroBudget = true ∧
    (StateMachine.run (agentHandlers oracleSearchLoop cfgSmall optsZeroBudget) agentValidators
        noCancel zeroElapsed 3 1000 (.searching 1 "q") rsZeroBudget).1
      = .error { name := "Error", message := "Max steps (3) exceeded at step 3" } ∧
    (StateMachine.run (agentHandlers oracleSearchLoop cfgSmall optsZeroBudget) agentValidators
        noCancel zeroElapsed 3 1000 (.searching 1 "q") rsZeroBudget).2 = 3 := by
  refine ⟨by simp [StateManager.isBudgetExhausted, rsZeroBudget, StateManager.initState,
    optsZeroBudget], rfl, rfl⟩

/-! Claim C6. -/

/-- C6 (amended): an answer action chosen in the searching state always
routes into the evaluating state; an answer action chosen in the reflecting
state always completes the session immediately with the action's answer and
references, at every step count — the code has no evaluation of that answer
and no allow-trivial-direct-answer flag or `totalStepCount == 1` special
case. -/
theorem C6_amended :
    (∀ (o : Oracle) (now step : Nat) (q : String) (s : ResearchState)
       (results : List ProviderSearchResult) (ans : String) (conf : Rat) (refs : List Reference),
       o.search q = .ok results →
       o.decideAction (StateManager.getContext
           (StateManager.addSearchResults (convertResults results) now s))
         = .ok (.answer ans conf refs) →
       handleSearching o now step q s
         = .ok (.evaluating step ans,
                StateManager.addSearchResults (convertResults results) now s)) ∧
    (∀ (o : Oracle) (now step : Nat) (fb : String) (s : ResearchState)
       (ans : String) (conf : Rat) (refs : List Reference),
       o.decideAction (StateManager.getContext s) = .ok (.answer ans conf refs) →
       handleReflecting o now step fb s = .ok (.completed ans refs, s)) := by
  constructor
  · intro o now step q s results ans conf refs hs hd
    simp [handleSearching, hs, decideNextAction, hd]
  · intro o now step fb s ans conf refs hd
    simp [handleReflecting, decideNextAction, hd]

/-- Environment that returns empty search results and always answers. -/
def oracleAnswerViaSearch : Oracle :=
  { oracleFail with
    search := fun _ => .ok []
    decideAction := fun _ => .ok (.answer "4" 1 []) }

/-- Witness for C6: concrete answer actions from the searching and the
reflecting states. -/
theorem C6_witness :
    handleSearching oracleAnswerViaSearch 0 1 "What is 2+2?" rsPlain
      = .ok (.evaluating 1 "4", StateManager.addSearchResults [] 0 rsPlain) ∧
    handleReflecting oracleAnswerViaSearch 0 2 "Evaluating progress" rsPlain
      = .ok (.completed "4" [], rsPlain) :=
  ⟨C6_amended.1 oracleAnswerViaSearch 0 1 "What is 2+2?" rsPlain [] "4" 1 [] rfl rfl,
   C6_amended.2 oracleAnswerViaSearch 0 2 "Evaluating progress" rsPlain "4" 1 [] rfl⟩

/-- Counterexample to C6 as stated: at step 5 (so not the
`totalStepCount == 1` case) an answer action taken while reflecting reaches
the completed state directly, without entering the evaluating state. -/
theorem C6_cex :
    handleReflecting oracleAnswer 0 5 "fb" rsPlain = .ok (.completed "42" [], rsPlain) ∧
    statusOf (.completed "42" []) = "completed" := by
  exact ⟨rfl, rfl⟩

/-! Association-list lemmas supporting the StateManager claims. -/

/-- Reading back the key just written. -/
theorem assocGet_assocSet_self {α : Type} (k : String) (v : α) (l : List (String × α)) :
    assocGet k (assocSet k v l) = some v := by
  induction l with
  | nil => simp [assocGet, assocSet]
  | cons p rest ih =>
    rcases p with ⟨k', v'⟩
    by_cases h : k' = k
    · simp [assocGet, assocSet, h]
    · simp [assocGet, assocSet, h, ih]

/-- Writing one key leaves every other key's value unchanged. -/
theorem assocGet_assocSet_ne {α : Type} (k u : String) (v : α) (l : List (String × α))
    (h : u ≠ k) : assocGet u (assocSet k v l) = assocGet u l := by
  have hku : ¬ k = u := fun hh => h hh.symm
  induction l with
  | nil => simp [assocGet, assocSet, hku]
  | cons p rest ih =>
    rcases p with ⟨k', v'⟩
    by_cases hk : k' = k
    · subst hk
      simp [assocGet, assocSet, hku]
    · simp [assocGet, assocSet, hk, ih]

/-- The insert-if-absent fold of `addSearchResultsDraft` never changes an
existing entry. -/
theorem assocGet_foldIns (results : List SearchResult) :
    ∀ (l : List (String × SearchResult)) (u : String) (r : SearchResult),
      assocGet u l = some r →
      assocGet u (results.foldl
        (fun acc x => if (assocGet x.url acc).isSome then acc else assocSet x.url x acc) l)
        = some r := by
  induction results with
  | nil => intro l u r h; simpa using h
  | cons x xs ih =>
    intro l u r h
    simp only [List.foldl_cons]
    by_cases hin : (assocGet x.url l).isSome = true
    · rw [if_pos hin]
      exact ih l u r h
    · rw [if_neg hin]
      by_cases hu : u = x.url
      · subst hu
        rw [h] at hin
        simp at hin
      · exact ih _ u r (by rw [assocGet_assocSet_ne _ _ _ _ hu]; exact h)

/-! Claim C5. -/

/-- C5: monotonicity and append-only records. At the observable layer every
mutator routes through `update`, which leaves `budget.used`, `step`, `urls`
and `content` unchanged (hence trivially non-decreasing and append-only).
At the intended draft layer, `trackTokenUsage`'s updater adds a
non-negative amount to `budget.used`, `incrementStep`'s updater increments
`step`, `markUrlVisited` never un-visits a URL or touches content,
`addContent` never removes a content record, and `addSearchResults` never
modifies an existing URL record. -/
theorem C5_monotonicity (n : Int) (hn : 0 ≤ n) :
    (∀ (f : ResearchState → ResearchState) (now : Nat) (s : ResearchState),
       (StateManager.update f now s).budget.used = s.budget.used ∧
       (StateManager.update f now s).step = s.step ∧
       (StateManager.update f now s).urls = s.urls ∧
       (StateManager.update f now s).content = s.content) ∧
    (∀ s : ResearchState, s.budget.used ≤ (trackTokenUsageDraft n s).budget.used) ∧
    (∀ s : ResearchState, s.step ≤ (incrementStepDraft s).step) ∧
    (∀ (s : ResearchState) (u url : String) (r : SearchResult),
       assocGet u s.urls = some r → r.visited = true →
       ∃ r', assocGet u (markUrlVisitedDraft url s).urls = some r' ∧ r'.visited = true) ∧
    (∀ (s : ResearchState) (url c : String) (now : Nat) (u : String) (w : WebContent),
       assocGet u s.content = some w →
       (assocGet u (addContentDraft url c now s).content).isSome = true) ∧
    (∀ (s : ResearchState) (results : List SearchResult) (u : String) (r : SearchResult),
       assocGet u s.urls = some r →
       assocGet u (addSearchResultsDraft results s).urls = some r) := by
  refine ⟨fun f now s => ⟨rfl, rfl, rfl, rfl⟩, fun s => by simp [trackTokenUsageDraft]; omega,
    fun s => by simp [incrementStepDraft], ?_, ?_, ?_⟩
  · intro s u url r hget hvis
    unfold markUrlVisitedDraft
    cases hv : assocGet url s.urls with
    | none => exact ⟨r, hget, hvis⟩
    | some r₀ =>
      by_cases hu : u = url
      · subst hu
        refine ⟨{ r₀ with visited := true }, ?_, rfl⟩
        simpa using assocGet_assocSet_self u { r₀ with visited := true } s.urls
      · exact ⟨r, by simpa [assocGet_assocSet_ne _ _ _ _ hu] using hget, hvis⟩
  · intro s url c now u w hget
    unfold addContentDraft
    by_cases hu : u = url
    · subst hu
      simp [assocGet_assocSet_self]
    · simp [assocGet_assocSet_ne _ _ _ _ hu, hget]
  · intro s results u r hget
    exact assocGet_foldIns results s.urls u r hget

/-- Witness for C5: concrete token tracking and step increment. -/
theorem C5_witness :
    (0 : Int) ≤ 7 ∧
    (StateManager.update (trackTokenUsageDraft 7) 5 rsPlain).budget.used
      = rsPlain.budget.used ∧
    rsPlain.budget.used ≤ (trackTokenUsageDraft 7 rsPlain).budget.used ∧
    rsPlain.step ≤ (incrementStepDraft rsPlain).step :=
  ⟨by norm_num,
   ((C5_monotonicity 7 (by norm_num)).1 (trackTokenUsageDraft 7) 5 rsPlain).1,
   (C5_monotonicity 7 (by norm_num)).2.1 rsPlain,
   (C5_monotonicity 7 (by norm_num)).2.2.1 rsPlain⟩

/-! Claim C8. -/

/-- C8: every StateManager mutator leaves every observable field except
`lastUpdate` exactly as it was, because `update` hands the draft to Immer's
`produce` but never stores the produced next state; in particular
`getUsedTokens` returns the same value before and after `trackTokenUsage n`
for every `n`. -/
theorem C8_update_never_stores :
    (∀ (f : ResearchState → ResearchState) (now : Nat) (s : ResearchState),
       StateManager.update f now s = { s with lastUpdate := now }) ∧
    (∀ (q : String) (now : Nat) (s : ResearchState),
       StateManager.initialize q now s = { s with lastUpdate := now }) ∧
    (∀ (rs : List SearchResult) (now : Nat) (s : ResearchState),
       StateManager.addSearchResults rs now s = { s with lastUpdate := now }) ∧
    (∀ (u : String) (now : Nat) (s : ResearchState),
       StateManager.markUrlVisited u now s = { s with lastUpdate := now }) ∧
    (∀ (u c : String) (now : Nat) (s : ResearchState),
       StateManager.addContent u c now s = { s with lastUpdate := now }) ∧
    (∀ (o : StateManagerOptions) (q a : String) (ty : KnowledgeType) (now : Nat) (s : ResearchState),
       StateManager.addKnowledge o q a ty now s = { s with lastUpdate := now }) ∧
    (∀ (n : Int) (now : Nat) (s : ResearchState),
       StateManager.trackTokenUsage n now s = { s with lastUpdate := now }) ∧
    (∀ (now : Nat) (s : ResearchState),
       StateManager.incrementErrorCount now s = { s with lastUpdate := now }) ∧
    (∀ (now : Nat) (s : ResearchState),
       StateManager.incrementStep now s = { s with lastUpdate := now }) ∧
    (∀ (n : Int) (now : Nat) (s : ResearchState),
       StateManager.getUsedTokens (StateManager.trackTokenUsage n now s)
         = StateManager.getUsedTokens s) :=
  ⟨fun _ _ _ => rfl, fun _ _ _ => rfl, fun _ _ _ => rfl, fun _ _ _ => rfl,
   fun _ _ _ _ => rfl, fun _ _ _ _ _ _ => rfl, fun _ _ _ => rfl, fun _ _ => rfl,
   fun _ _ => rfl, fun _ _ _ => rfl⟩

/-! Claim C7. -/

/-- C7: evaluation of the code at the failing input. Adding a knowledge item
to a fresh StateManager leaves the stored knowledge list empty — the item is
not retained, because `update` discards the produced state. The second
conjunct shows that even the intended draft semantics is not
retain-everything: with `maxKnowledge = 1`, adding a second item drops the
first from the store itself, not merely from the presented window. -/
theorem C7_knowledge_not_retained :
    (StateManager.addKnowledge optsPlain "q" "a" KnowledgeType.visit 1
        (StateManager.initState optsPlain)).knowledge = [] ∧
    (addKnowledgeDraft (some 1) "k2" "a2" KnowledgeType.qa 2
        { StateManager.initState optsPlain with
            knowledge := [{ question := "k1", answer := "a1", type := KnowledgeType.qa, timestamp := 1 }] }).knowledge
      = [{ question := "k2", answer := "a2", type := KnowledgeType.qa, timestamp := 2 }] := by
  constructor <;> rfl

/-! Claim C9. -/

/-- C9 (amended): `retryable` is true exactly when the error carries no HTTP
status code, carries status 0 (JS-falsy, as in `!context.statusCode`),
carries 429, or carries a status of 500 or greater; it is false for every
4xx status other than 429. The original claim misses the status-0 case. -/
theorem C9_amended :
    (∀ sc : Option Int, LLMError.retryable sc = true ↔
       (sc = none ∨ sc = some 0 ∨ sc = some 429 ∨ ∃ c, sc = some c ∧ 500 ≤ c)) ∧
    (∀ c : Int, 400 ≤ c → c < 500 → c ≠ 429 → LLMError.retryable (some c) = false) := by
  constructor
  · intro sc
    cases sc with
    | none => simp [LLMError.retryable]
    | some c =>
      simp only [LLMError.retryable, Bool.or_eq_true, decide_eq_true_eq,
        Option.some.injEq, reduceCtorEq, false_or]
      constructor
      · intro h
        rcases h with (h | h) | h
        · exact Or.inl h
        · exact Or.inr (Or.inl h)
        · exact Or.inr (Or.inr ⟨c, rfl, h⟩)
      · intro h
        rcases h with h | h | ⟨c', hc, h⟩
        · exact Or.inl (Or.inl h)
        · exact Or.inl (Or.inr h)
        · subst hc
          exact Or.inr h
  · intro c h1 h2 h3
    simp only [LLMError.retryable, Bool.or_eq_false_iff, decide_eq_false_iff_not]
    refine ⟨⟨by omega, h3⟩, by omega⟩

/-- Witness for C9: status 404 is not retryable. -/
theorem C9_witness : LLMError.retryable (some 404) = false :=
  C9_amended.2 404 (by norm_num) (by norm_num) (by norm_num)

/-- Counterexample to C9 as stated: an LLMError constructed with status code
0 — which carries a status code that is neither 429 nor ≥ 500 — is
nonetheless marked retryable, because `!context.statusCode` treats the
number 0 as falsy. -/
theorem C9_cex :
    LLMError.retryable (some 0) = true ∧ specLLMRetryable (some 0) = false := by
  constructor <;> rfl

/-! Claim C10. -/

/-- A last-space index returned by `lastSpaceIdx` is inside the list. -/
theorem lastSpaceIdx_lt_length :
    ∀ (l : List Char) (i : Nat), lastSpaceIdx l = some i → i < l.length := by
  intro l
  induction l with
  | nil => intro i h; simp [lastSpaceIdx] at h
  | cons c rest ih =>
    intro i h
    unfold lastSpaceIdx at h
    cases hrest : lastSpaceIdx rest with
    | some j =>
      rw [hrest] at h
      cases h
      have := ih j hrest
      simp
      omega
    | none =>
      rw [hrest] at h
      by_cases hc : c = ' '
      · rw [if_pos hc] at h
        cases h
        simp
      · rw [if_neg hc] at h
        cases h

/-- C10 (amended): for every string `s` and positive bound `m`,
`truncateContent s m` returns `s` unchanged when `s.length ≤ m`, and
otherwise a word-boundary cut of the first `m` characters followed by the
three-character ellipsis, whose length is at most `m + 2` — so it can
exceed the bound by up to two characters, and the reader's content length
after the maxLength step is bounded by `m + 2`, not by `m`. -/
theorem C10_amended (s : String) (m : Nat) (hm : 0 < m) :
    (s.length ≤ m → truncateContent s m = s) ∧
    (truncateContent s m).length ≤ m + 2 ∧
    (applyMaxLength s m).length ≤ m + 2 := by
  have hdot : ("..." : String).data.length = 3 := by decide
  have hbound : (truncateContent s m).length ≤ m + 2 := by
    unfold truncateContent
    by_cases hle : s.length ≤ m
    · rw [if_pos hle]
      omega
    · rw [if_neg hle]
      dsimp only
      have hslen : s.length = s.data.length := rfl
      cases hls : lastSpaceIdx (s.data.take m) with
      | none =>
        have hlen : ((s.data.take m).take ((s.data.take m).length - 1) ++ ("..." : String).data).length
            = ((s.data.take m).take ((s.data.take m).length - 1)).length + 3 := by
          rw [List.length_append, hdot]
        show (((s.data.take m).take ((s.data.take m).length - 1)) ++ ("..." : String).data).length ≤ m + 2
        rw [hlen, List.length_take, List.length_take]
        omega
      | some i =>
        have hi := lastSpaceIdx_lt_length _ _ hls
        rw [List.length_take] at hi
        have hlen : ((s.data.take m).take i ++ ("..." : String).data).length
            = ((s.data.take m).take i).length + 3 := by
          rw [List.length_append, hdot]
        show (((s.data.take m).take i) ++ ("..." : String).data).length ≤ m + 2
        rw [hlen, List.length_take]
        omega
  refine ⟨?_, hbound, ?_⟩
  · intro hle
    unfold truncateContent
    rw [if_pos hle]
  · unfold applyMaxLength
    by_cases hgt : m < s.length
    · rw [if_pos hgt]
      exact hbound
    · rw [if_neg hgt]
      omega

/-- Witness for C10: a short string passes through unchanged and a truncated
one stays within `m + 2`. -/
theorem C10_witness :
    truncateContent "hi" 5 = "hi" ∧ (truncateContent "hello world" 5).length ≤ 7 :=
  ⟨(C10_amended "hi" 5 (by norm_num)).1 (by decide),
   (C10_amended "hello world" 5 (by norm_num)).2.1⟩

/-- Counterexample to C10 as stated: truncating "abcd efgh" to 5 yields
"abcd..." of length 7, exceeding the bound m = 5. -/
theorem C10_cex :
    truncateContent "abcd efgh" 5 = "abcd..." ∧
    ¬ ((truncateContent "abcd efgh" 5).length ≤ 5) := by
  constructor
  · rfl
  · decide
